import Mathlib

/-!
Verification of the WorkWeaver tiered summary engine against its
natural-language specification.

The definitions below are a shallow embedding of the JavaScript sources:
  - `ScreenshotComparer` (src/ai_summary/src/screenshot-comparer.js)
  - `GeminiClient.generate` (src/ai_summary/src/gemini-client.js)
  - `SummaryScheduler` (summary-scheduler module: `_run2min`, `_run10min`,
    `_run1h`, `_detectTimeGap`, `_parseResponse`, `stop`)
JS objects become Lean structures, byte buffers become `List Nat`,
timestamps become `Int` milliseconds, fallible host primitives
(JSON.parse success, external API outcomes, timer polls) become explicit
parameters of the model, and the scheduler's effects (store writes, stat
updates, API invocations) are made explicit in a result record.
-/

namespace WorkWeaver

/-- A captured screenshot: opaque byte payload plus capture time (ms).
Mirrors the `{buffer: Buffer, timestamp: Date}` items returned by
`ScreenshotReader.getRecentScreenshotBuffers`. -/
structure Screenshot where
  buffer : List Nat
  timestampMs : Int
deriving Repr, DecidableEq

/-- A persisted summary record as read back from the store, restricted to
the fields the scheduler and comparer inspect. `timestamp = none` models a
missing/falsy or unparseable timestamp string; `no_change` is the JS check
`s.no_change === true` (absent field gives `false`); `context = none`
models an absent/falsy `context` field. -/
structure StoredSummary where
  timestamp : Option Int
  no_change : Bool
  context : Option String
deriving Repr, DecidableEq

/-- One merged activity segment, after the schema in the 10min prompt
(`activity_timeline` / `time_distribution` element shape). In the source
the no-change template records only ever hold empty arrays of these. -/
structure TimelineEntry where
  label : String
  category_type : String
  start_time : String
  end_time : String
  minutes : Nat
  subtasks : List String
deriving Repr, DecidableEq

/-- The literal object built by `ScreenshotComparer.buildNoChange2minRecord`. -/
structure NoChange2min where
  no_change : Bool
  skip_reason : String
  category_type : List String
  category_name : List String
  subtask_name : List String
  task_status : String
  interaction_mode : String
  browse_content : String
  operate_action : String
  core_action : String
  context : String
  content_change : String
  progress : String
  blockers : String
  next_intent : String
  confidence : String
  duration_minutes : Nat
  screenshots_compared : Nat
deriving Repr, DecidableEq

/-- The literal object built by `ScreenshotComparer.buildNoChange10minRecord`. -/
structure NoChange10min where
  no_change : Bool
  skip_reason : String
  task_main : String
  activity_timeline : List TimelineEntry
  key_progress : String
  key_objects : String
  content_change : String
  blockers : String
  next_step : String
  confidence : String
  no_change_2min_count : Nat
deriving Repr, DecidableEq

/-- The literal object built by `ScreenshotComparer.buildNoChange1hRecord`. -/
structure NoChange1h where
  no_change : Bool
  skip_reason : String
  achievements : List String
  task_chain : String
  time_distribution : List TimelineEntry
  miscellaneous : List TimelineEntry
  key_output : String
  blockers : String
  next_direction : String
  confidence : String
  no_change_10min_count : Nat
deriving Repr, DecidableEq

/-- A record handed to `summaryStore.save`, tagged by how it was produced:
a no-change template, a successfully JSON-parsed AI response (carrying the
extracted JSON text), or the `{raw_response}` fallback of
`SummaryScheduler._parseResponse`. -/
inductive SummaryRecord where
  | noChange2min (r : NoChange2min)
  | noChange10min (r : NoChange10min)
  | noChange1h (r : NoChange1h)
  | parsedJson (jsonStr : String)
  | rawFallback (raw : String)
deriving Repr, DecidableEq

/-- Gap information returned by `SummaryScheduler._detectTimeGap`. The
source renders `lastSummaryTime` with `toLocaleTimeString`; the model
keeps the underlying milliseconds (locale rendering is host-provided). -/
structure GapInfo where
  gapMinutes : Int
  lastSummaryTimeMs : Int
deriving Repr, DecidableEq

/-- Per-tier execution statistics (`this.stats[granularity]`). -/
structure TierStats where
  count : Nat
  errors : Nat
  skipped : Nat
deriving Repr, DecidableEq

/- ## JS string primitives

Kernel-reducible models of the JS string operations the sources rely on
(`String.prototype.trim`, prefix tests, first-occurrence search), built
on `List Char` so that concrete witnesses evaluate. -/

/-- Whitespace for the model of JS `trim` / regex `\s` (space, tab,
newline, carriage return; the exotic JS whitespace code points never
arise in the modelled strings). -/
def isJsWs (c : Char) : Bool :=
  c == ' ' || c == '\t' || c == '\n' || c == '\r'

/-- Strip leading and trailing whitespace from a character list. -/
def trimChars (l : List Char) : List Char :=
  ((l.dropWhile isJsWs).reverse.dropWhile isJsWs).reverse

/-- JS `s.trim()`. -/
def jsTrim (s : String) : String := String.mk (trimChars s.toList)

/-- Split at the first occurrence of `pat`:
`some (pre, post)` with the input equal to `pre ++ pat ++ post` at the
earliest such position, `none` when `pat` does not occur. `fuel` bounds
the scan and any value of at least the input length is exact. -/
def splitFirst (pat : List Char) : Nat → List Char → Option (List Char × List Char)
  | 0, _ => none
  | _, [] => none
  | fuel + 1, c :: cs =>
    if pat.isPrefixOf (c :: cs) then some ([], (c :: cs).drop pat.length)
    else
      match splitFirst pat fuel cs with
      | some (pre, post) => some (c :: pre, post)
      | none => none

/-- The triple-backtick fence delimiter of the response regex. -/
def fenceChars : List Char := "```".toList

/-- The optional `json` tag after the opening fence. -/
def jsonTag : List Char := "json".toList

/- ## ScreenshotComparer -/

/-- `ScreenshotComparer.allIdentical`: false for 0 or 1 screenshots,
otherwise every later buffer is compared byte-for-byte
(`Buffer.equals`) against the first. -/
def allIdentical (screenshots : List Screenshot) : Bool :=
  match screenshots with
  | [] => false
  | [_] => false
  | base :: rest => rest.all (fun s => s.buffer == base.buffer)

/-- `ScreenshotComparer.allNoChange`: false on an empty list, else
`every(s => s.no_change === true)`. -/
def allNoChange (summaries : List StoredSummary) : Bool :=
  match summaries with
  | [] => false
  | _ => summaries.all (fun s => s.no_change)

/-- Leading `"..."` group of `/^"([^"]+)"/`: at least one non-quote
character between an opening quote at position 0 and a closing quote. -/
def parseLeadingQuoted (s : String) : Option String :=
  match s.toList with
  | '"' :: rest =>
    let inner := rest.takeWhile (fun c => c ≠ '"')
    if 0 < inner.length ∧ inner.length < rest.length then
      some (String.mk inner)
    else none
  | _ => none

/-- `ScreenshotComparer._extractWindowNameFromWindowText`: first line's
leading quoted name, else the trimmed first line; `'不确定'` when empty. -/
def extractWindowNameFromWindowText (windowText : String) : String :=
  if windowText = "" then "不确定"
  else
    let firstLine := String.mk (windowText.toList.takeWhile (fun c => c ≠ '\n'))
    match parseLeadingQuoted firstLine with
    | some name => name
    | none => jsTrim firstLine

/-- `ScreenshotComparer.buildNoChange2minRecord`. The source reads
`screenshots[screenshots.length - 1].timestamp`, which throws on an empty
list; that is modelled by `none`. All content fields are literals. -/
def buildNoChange2minRecord (screenshots : List Screenshot)
    (activeWindowText : String) : Option NoChange2min :=
  match screenshots.getLast? with
  | none => none
  | some _lastShot =>
    some
      { no_change := true
        skip_reason := "截图完全一致，屏幕无变化"
        category_type := ["行为"]
        category_name := ["屏幕无变化"]
        subtask_name := [""]
        task_status := "继续"
        interaction_mode := "无操作"
        browse_content := "不确定"
        operate_action := "无"
        core_action := "屏幕无变化"
        context :=
          if activeWindowText ≠ "" then
            extractWindowNameFromWindowText activeWindowText
          else "不确定"
        content_change := "无明确变化"
        progress := "无明显进展"
        blockers := "无"
        next_intent := "不确定"
        confidence := "高"
        duration_minutes := 2
        screenshots_compared := screenshots.length }

/-- Order-preserving deduplication, as `[...new Set(xs)]` in JS. -/
def dedupKeepFirst (xs : List String) : List String :=
  xs.foldl (fun acc c => if acc.contains c then acc else acc ++ [c]) []

/-- `ScreenshotComparer.buildNoChange10minRecord`: extracts the distinct
usable `context` values of the children, everything else is literal. -/
def buildNoChange10minRecord (recent2min : List StoredSummary) : NoChange10min :=
  let contexts :=
    (recent2min.filterMap (fun s => s.context)).filter
      (fun c => c ≠ "" && c ≠ "不确定")
  let contextStr :=
    if contexts.length > 0 then String.intercalate ", " (dedupKeepFirst contexts)
    else "不确定"
  { no_change := true
    skip_reason := "所有2min子级均为无变化，跳过API请求"
    task_main := "无活动 — 屏幕持续无变化"
    activity_timeline := []
    key_progress := "无明显进展"
    key_objects := contextStr
    content_change := "无明确变化"
    blockers := "无"
    next_step := "不确定"
    confidence := "高"
    no_change_2min_count := recent2min.length }

/-- `ScreenshotComparer.buildNoChange1hRecord`: all fields literal except
the child count. -/
def buildNoChange1hRecord (recent10min : List StoredSummary) : NoChange1h :=
  { no_change := true
    skip_reason := "所有10min子级均为无变化，跳过API请求"
    achievements := []
    task_chain := "无活动 — 屏幕持续无变化"
    time_distribution := []
    miscellaneous := []
    key_output := "无"
    blockers := "无"
    next_direction := "不确定"
    confidence := "高"
    no_change_10min_count := recent10min.length }

/- ## GeminiClient -/

/-- Retry configuration of `GeminiClient`: `max_retries || 3` attempts and
`(retry_delay || 2) * 1000` ms base delay. -/
structure GenConfig where
  maxRetries : Nat
  retryDelayMs : Nat
deriving Repr, DecidableEq

/-- Token usage metadata attached to a response (opaque to the model). -/
structure UsageMetadata where
  totalTokens : Nat
deriving Repr, DecidableEq

/-- Outcome of one underlying `genai.models.generateContent` call: either
the SDK throws, or it resolves with a response whose `text` property may
be absent (`none`). -/
inductive GenAttempt where
  | apiError (msg : String)
  | response (text : Option String) (usage : Option UsageMetadata)
deriving Repr, DecidableEq

/-- The value `GeminiClient.generate` resolves with:
`{text, usageMetadata}`. -/
structure GenSuccess where
  text : String
  usage : Option UsageMetadata
deriving Repr, DecidableEq

/-- Error message thrown for a missing/empty/whitespace-only response
text (`'Gemini 返回空响应'`). -/
def emptyRespMsg : String := "Gemini 返回空响应"

/-- The blank-response test of `generate`:
`!text || text.trim() === ''` on the response's optional `text`. -/
def isBlankText : Option String → Bool
  | none => true
  | some s => jsTrim s == ""

/-- Why a given attempt fails inside `generate`'s try block, if it does:
an SDK error propagates as-is; a resolved response with `!text ||
text.trim() === ''` raises `emptyRespMsg`; otherwise the attempt
succeeds (`none`). -/
def attemptFailMsg : GenAttempt → Option String
  | GenAttempt.apiError m => some m
  | GenAttempt.response none _ => some emptyRespMsg
  | GenAttempt.response (some s) _ =>
    if jsTrim s = "" then some emptyRespMsg else none

/-- The retry loop of `GeminiClient.generate`, unrolled over the remaining
attempt budget. `attempt` is the 1-based attempt counter and `outcomes`
gives each underlying call's result. Returns the resolved value or the
thrown last error, paired with the list of `_sleep` durations performed
(the source sleeps `retryDelay * attempt` after every failed attempt
except the final one). With an exhausted budget the source throws the
JS `lastError`, which is `null` before the first attempt. -/
def generateLoop (cfg : GenConfig) (outcomes : Nat → GenAttempt) :
    Nat → Nat → Except String GenSuccess × List Nat
  | _, 0 => (Except.error "null", [])
  | attempt, remaining + 1 =>
    match outcomes attempt with
    | GenAttempt.response (some s) u =>
      if jsTrim s = "" then
        if remaining = 0 then (Except.error emptyRespMsg, [])
        else
          let rest := generateLoop cfg outcomes (attempt + 1) remaining
          (rest.1, cfg.retryDelayMs * attempt :: rest.2)
      else (Except.ok ⟨s, u⟩, [])
    | GenAttempt.response none _ =>
      if remaining = 0 then (Except.error emptyRespMsg, [])
      else
        let rest := generateLoop cfg outcomes (attempt + 1) remaining
        (rest.1, cfg.retryDelayMs * attempt :: rest.2)
    | GenAttempt.apiError m =>
      if remaining = 0 then (Except.error m, [])
      else
        let rest := generateLoop cfg outcomes (attempt + 1) remaining
        (rest.1, cfg.retryDelayMs * attempt :: rest.2)

/-- `GeminiClient.generate`: run the retry loop starting at attempt 1 with
the full `maxRetries` budget. -/
def generateRun (cfg : GenConfig) (outcomes : Nat → GenAttempt) :
    Except String GenSuccess × List Nat :=
  generateLoop cfg outcomes 1 cfg.maxRetries

/- ## SummaryScheduler._parseResponse -/

/-- Markdown code-fence extraction of `_parseResponse`: the regex
`/\x60\x60\x60(?:json)?\s*([\s\S]*?)\x60\x60\x60/` takes the text between the
first pair of triple-backtick fences, minus an optional `json` tag, and
trims it; with no complete fence pair the input is kept whole. -/
def stripCodeFence (s : String) : String :=
  let l := s.toList
  match splitFirst fenceChars (l.length + 1) l with
  | none => s
  | some (_, afterOpen) =>
    match splitFirst fenceChars (afterOpen.length + 1) afterOpen with
    | none => s
    | some (inner, _) =>
      let inner2 :=
        if jsonTag.isPrefixOf inner then inner.drop jsonTag.length else inner
      String.mk (trimChars inner2)

/-- `SummaryScheduler._parseResponse`: trim, strip a code fence, then
`JSON.parse`. Whether the host `JSON.parse` accepts the extracted string
is supplied as the predicate `jsonParses`; on failure the original
(untrimmed) text is kept as `{raw_response: responseText}`. -/
def parseResponseRecord (jsonParses : String → Bool) (responseText : String) :
    SummaryRecord :=
  let jsonStr := stripCodeFence (jsTrim responseText)
  if jsonParses jsonStr then SummaryRecord.parsedJson jsonStr
  else SummaryRecord.rawFallback responseText

/- ## SummaryScheduler._detectTimeGap -/

/-- JS `Math.round(diffMs / 60000)` on integer milliseconds:
`⌊diffMs/60000 + 1/2⌋ = ⌊(diffMs + 30000)/60000⌋` (floor division,
rounding halves toward positive infinity exactly as `Math.round`). -/
def roundDivMinute (diffMs : Int) : Int :=
  Int.fdiv (diffMs + 30000) 60000

/-- `SummaryScheduler._detectTimeGap`: take the last history record; with
no record or no parseable timestamp return null; else report a gap iff
the rounded minute difference strictly exceeds twice the expected
interval. -/
def detectTimeGap (historySummaries : List StoredSummary) (nowMs : Int)
    (intervalMinutes : Int) : Option GapInfo :=
  match historySummaries.getLast? with
  | none => none
  | some lastSummary =>
    match lastSummary.timestamp with
    | none => none
    | some lastMs =>
      let diffMinutes := roundDivMinute (nowMs - lastMs)
      if diffMinutes > intervalMinutes * 2 then
        some { gapMinutes := diffMinutes, lastSummaryTimeMs := lastMs }
      else none

/- ## SummaryScheduler tier pipelines

Each `_runX` method is embedded as a pure function of the tier's
`_executing` flag, its `stats` entry, and an environment record holding
everything the pipeline observes from collaborators during that tick
(the allowed-time gate, store reads, comparer availability, the per-tick
sequence of external-call outcomes, and the host `JSON.parse`). The
function returns the flag and stats after the `finally` block, the
`summaryStore.save` calls made (granularity tag and record; the store
additionally keys by wall-clock timestamp, which the model omits), and
whether `geminiClient.generate` was invoked. Prompt building, prompt/token
logging and the inner-try Todo write-back have no effect on any of these
observables and are not tracked. -/

/-- Observable outcome of one `_runX` invocation. -/
structure RunResult where
  executingAfter : Bool
  stats : TierStats
  savedRecords : List (String × SummaryRecord)
  apiCalled : Bool
deriving Repr, DecidableEq

/-- Environment observed by `SummaryScheduler._run2min` during one tick. -/
structure Env2min where
  allowed : Bool
  baseEnabled : Bool
  screenshots : List Screenshot
  hasComparer : Bool
  activeWindowTextSkip : String
  activeWindowText : String
  historySummaries : List StoredSummary
  nowMs : Int
  genCfg : GenConfig
  genOutcomes : Nat → GenAttempt
  jsonParses : String → Bool

/-- `SummaryScheduler._run2min`. Drop the tick when `_executing['2min']`
or the time gate disallows; else set the flag, run the pipeline
(enabled check, screenshot read, identical-screenshot skip path, gap
detection, Gemini call with retries, parse, save), route any throw to the
catch block (`stats.errors++`), and clear the flag in `finally`. The
base granularity is the constructor constant `'2min'` / 2 minutes. -/
def run2min (executing : Bool) (stats : TierStats) (env : Env2min) : RunResult :=
  if executing || !env.allowed then
    { executingAfter := executing, stats := stats
      savedRecords := [], apiCalled := false }
  else if !env.baseEnabled then
    { executingAfter := false, stats := stats
      savedRecords := [], apiCalled := false }
  else if env.screenshots.isEmpty then
    { executingAfter := false, stats := stats
      savedRecords := [], apiCalled := false }
  else if env.hasComparer && allIdentical env.screenshots then
    match buildNoChange2minRecord env.screenshots env.activeWindowTextSkip with
    | some rec =>
      { executingAfter := false
        stats := { stats with skipped := stats.skipped + 1 }
        savedRecords := [("2min", SummaryRecord.noChange2min rec)]
        apiCalled := false }
    | none =>
      { executingAfter := false
        stats := { stats with errors := stats.errors + 1 }
        savedRecords := [], apiCalled := false }
  else
    let _gapInfo := detectTimeGap env.historySummaries env.nowMs 2
    match (generateRun env.genCfg env.genOutcomes).1 with
    | Except.error _ =>
      { executingAfter := false
        stats := { stats with errors := stats.errors + 1 }
        savedRecords := [], apiCalled := true }
    | Except.ok res =>
      { executingAfter := false
        stats := { stats with count := stats.count + 1 }
        savedRecords := [("2min", parseResponseRecord env.jsonParses res.text)]
        apiCalled := true }

/-- Environment observed by `SummaryScheduler._run10min` during one tick. -/
structure Env10min where
  allowed : Bool
  recent2min : List StoredSummary
  hasComparer : Bool
  history10min : List StoredSummary
  activeWindowText : String
  genCfg : GenConfig
  genOutcomes : Nat → GenAttempt
  jsonParses : String → Bool

/-- `SummaryScheduler._run10min`. Same shape as `_run2min` but over the
recent 2min child records: empty input returns silently, all-no-change
children take the template skip path, otherwise the Gemini call's parsed
response is saved unchanged (there is no in-process aggregation step
between parse and save). -/
def run10min (executing : Bool) (stats : TierStats) (env : Env10min) : RunResult :=
  if executing || !env.allowed then
    { executingAfter := executing, stats := stats
      savedRecords := [], apiCalled := false }
  else if env.recent2min.isEmpty then
    { executingAfter := false, stats := stats
      savedRecords := [], apiCalled := false }
  else if env.hasComparer && allNoChange env.recent2min then
    { executingAfter := false
      stats := { stats with skipped := stats.skipped + 1 }
      savedRecords :=
        [("10min", SummaryRecord.noChange10min
          (buildNoChange10minRecord env.recent2min))]
      apiCalled := false }
  else
    match (generateRun env.genCfg env.genOutcomes).1 with
    | Except.error _ =>
      { executingAfter := false
        stats := { stats with errors := stats.errors + 1 }
        savedRecords := [], apiCalled := true }
    | Except.ok res =>
      { executingAfter := false
        stats := { stats with count := stats.count + 1 }
        savedRecords := [("10min", parseResponseRecord env.jsonParses res.text)]
        apiCalled := true }

/-- Environment observed by `SummaryScheduler._run1h` during one tick. -/
structure Env1h where
  allowed : Bool
  recent10min : List StoredSummary
  hasComparer : Bool
  earlier10min : List StoredSummary
  activeWindowText : String
  genCfg : GenConfig
  genOutcomes : Nat → GenAttempt
  jsonParses : String → Bool

/-- `SummaryScheduler._run1h`: the top tier over recent 10min records,
with the same guard, empty-input, all-no-change-skip, and call/parse/save
structure as the other tiers. -/
def run1h (executing : Bool) (stats : TierStats) (env : Env1h) : RunResult :=
  if executing || !env.allowed then
    { executingAfter := executing, stats := stats
      savedRecords := [], apiCalled := false }
  else if env.recent10min.isEmpty then
    { executingAfter := false, stats := stats
      savedRecords := [], apiCalled := false }
  else if env.hasComparer && allNoChange env.recent10min then
    { executingAfter := false
      stats := { stats with skipped := stats.skipped + 1 }
      savedRecords :=
        [("1h", SummaryRecord.noChange1h
          (buildNoChange1hRecord env.recent10min))]
      apiCalled := false }
  else
    match (generateRun env.genCfg env.genOutcomes).1 with
    | Except.error _ =>
      { executingAfter := false
        stats := { stats with errors := stats.errors + 1 }
        savedRecords := [], apiCalled := true }
    | Except.ok res =>
      { executingAfter := false
        stats := { stats with count := stats.count + 1 }
        savedRecords := [("1h", parseResponseRecord env.jsonParses res.text)]
        apiCalled := true }

/- ## SummaryScheduler.stop -/

/-- One observable step of `SummaryScheduler.stop`: cancelling a tier's
repeating timer (`clearInterval`), sleeping between drain polls, or
returning to the caller. -/
inductive StopEvent where
  | clearTimer2min
  | clearTimer10min
  | clearTimer1h
  | finished
deriving Repr, DecidableEq

/-- A sleep of the drain loop, kept separate so the trace records its
duration (the source awaits `setTimeout(resolve, 100)`). -/
inductive StopStep where
  | event (e : StopEvent)
  | sleepMs (ms : Nat)
deriving Repr, DecidableEq

/-- The drain loop of `stop`: at poll `n` it reads whether any tier's
`_executing` flag is still true (`anyExec n`); while so, it sleeps 100 ms
and polls again. `fuel` bounds the unrolling; `none` means the loop has
not terminated within `fuel` polls. The loop only ever reads the
`_executing` flags — it never writes them. -/
def stopDrain (anyExec : Nat → Bool) : Nat → Nat → Option (List StopStep)
  | _, 0 => none
  | n, fuel + 1 =>
    if anyExec n then
      match stopDrain anyExec (n + 1) fuel with
      | some steps => some (StopStep.sleepMs 100 :: steps)
      | none => none
    else some [StopStep.event StopEvent.finished]

/-- `SummaryScheduler.stop` as an event trace: a no-op when not running;
otherwise it clears the three tier timers (so no further tick can fire),
then runs the drain loop, and returns only once that loop has observed
all `_executing` flags false. -/
def stopModel (isRunning : Bool) (anyExec : Nat → Bool) (fuel : Nat) :
    Option (List StopStep) :=
  if !isRunning then some [StopStep.event StopEvent.finished]
  else
    match stopDrain anyExec 0 fuel with
    | some steps =>
      some (StopStep.event StopEvent.clearTimer2min ::
            StopStep.event StopEvent.clearTimer10min ::
            StopStep.event StopEvent.clearTimer1h :: steps)
    | none => none

/- ## Concrete instances used by the witnesses -/

/-- Zeroed statistics entry, the constructor's initial value. -/
def stW : TierStats := ⟨0, 0, 0⟩

/-- A base-tier tick with two byte-identical screenshots. -/
def envSkip2 : Env2min :=
  { allowed := true, baseEnabled := true
    screenshots := [⟨[7], 0⟩, ⟨[7], 60000⟩]
    hasComparer := true, activeWindowTextSkip := "", activeWindowText := ""
    historySummaries := [], nowMs := 0
    genCfg := ⟨3, 2000⟩
    genOutcomes := fun _ => GenAttempt.apiError "down"
    jsonParses := fun _ => false }

/-- The record `buildNoChange2minRecord` produces for `envSkip2`. -/
def recSkip : NoChange2min :=
  { no_change := true
    skip_reason := "截图完全一致，屏幕无变化"
    category_type := ["行为"]
    category_name := ["屏幕无变化"]
    subtask_name := [""]
    task_status := "继续"
    interaction_mode := "无操作"
    browse_content := "不确定"
    operate_action := "无"
    core_action := "屏幕无变化"
    context := "不确定"
    content_change := "无明确变化"
    progress := "无明显进展"
    blockers := "无"
    next_intent := "不确定"
    confidence := "高"
    duration_minutes := 2
    screenshots_compared := 2 }

/-- A mid-tier tick whose two child records are both no-change. -/
def envSkip10 : Env10min :=
  { allowed := true
    recent2min := [⟨some 0, true, some "Terminal"⟩, ⟨some 120000, true, none⟩]
    hasComparer := true, history10min := [], activeWindowText := ""
    genCfg := ⟨3, 2000⟩
    genOutcomes := fun _ => GenAttempt.apiError "down"
    jsonParses := fun _ => false }

/-- A top-tier tick whose child 10min records are all no-change. -/
def envSkip1h : Env1h :=
  { allowed := true
    recent10min := [⟨some 0, true, none⟩]
    hasComparer := true, earlier10min := [], activeWindowText := ""
    genCfg := ⟨3, 2000⟩
    genOutcomes := fun _ => GenAttempt.apiError "down"
    jsonParses := fun _ => false }

/-- A base-tier tick with changing screenshots whose external call fails
on every attempt. -/
def envFail2 : Env2min :=
  { allowed := true, baseEnabled := true
    screenshots := [⟨[1], 0⟩, ⟨[2], 60000⟩]
    hasComparer := true, activeWindowTextSkip := "", activeWindowText := ""
    historySummaries := [], nowMs := 0
    genCfg := ⟨3, 2000⟩
    genOutcomes := fun _ => GenAttempt.apiError "boom"
    jsonParses := fun _ => false }

/-- Retry configuration with 3 attempts and a 2s base delay. -/
def cfgW : GenConfig := ⟨3, 2000⟩

/-- Attempt outcomes whose first response has whitespace-only text and
whose later responses carry usable text. -/
def outcomesBlankThenOk : Nat → GenAttempt := fun n =>
  if n = 1 then GenAttempt.response (some "   ") none
  else GenAttempt.response (some " ok ") none

/-- A mid-tier tick with one active (non-no-change) child doing one
activity; the external call answers with the fixed text `resp-json`. -/
def envChildrenA : Env10min :=
  { allowed := true
    recent2min := [⟨some 0, false, some "写代码"⟩]
    hasComparer := true, history10min := [], activeWindowText := ""
    genCfg := ⟨3, 2000⟩
    genOutcomes := fun _ => GenAttempt.response (some "resp-json") none
    jsonParses := fun _ => true }

/-- The same tick as `envChildrenA` except the child record describes a
different activity. -/
def envChildrenB : Env10min :=
  { allowed := true
    recent2min := [⟨some 0, false, some "开会"⟩]
    hasComparer := true, history10min := [], activeWindowText := ""
    genCfg := ⟨3, 2000⟩
    genOutcomes := fun _ => GenAttempt.response (some "resp-json") none
    jsonParses := fun _ => true }

/-- Executing-flag observations that stay busy for the first two drain
polls and clear at the third. -/
def anyExecW : Nat → Bool := fun m => decide (m < 2)

/- ## Helper lemmas -/

/-- Identical-screenshot batches are nonempty (in fact have length 2 or
more), so the empty-input early return cannot fire on the skip path. -/
theorem isEmpty_false_of_allIdentical {l : List Screenshot}
    (h : allIdentical l = true) : l.isEmpty = false := by
  cases l with
  | nil => simp [allIdentical] at h
  | cons a t => rfl

/-- All-no-change child lists are nonempty by definition of
`allNoChange`. -/
theorem isEmpty_false_of_allNoChange {l : List StoredSummary}
    (h : allNoChange l = true) : l.isEmpty = false := by
  cases l with
  | nil => simp [allNoChange] at h
  | cons a t => rfl

/-- A nonempty screenshot list makes `buildNoChange2minRecord` succeed. -/
theorem buildNoChange2minRecord_isSome {l : List Screenshot} (h : l ≠ [])
    (awt : String) : ∃ r, buildNoChange2minRecord l awt = some r := by
  obtain ⟨lastShot, hlast⟩ :=
    Option.isSome_iff_exists.mp (List.getLast?_isSome.mpr h)
  unfold buildNoChange2minRecord
  rw [hlast]
  exact ⟨_, rfl⟩

/-- One failed attempt inside `generate`'s loop: with budget left it
sleeps `retryDelay * attempt` and recurses on the next attempt, on the
final attempt it throws this attempt's error. -/
theorem generateLoop_fail_step (cfg : GenConfig) (outcomes : Nat → GenAttempt)
    (a r : Nat) (m : String) (h : attemptFailMsg (outcomes a) = some m) :
    generateLoop cfg outcomes a (r + 1) =
      (if r = 0 then (Except.error m, ([] : List Nat))
       else ((generateLoop cfg outcomes (a + 1) r).1,
             cfg.retryDelayMs * a :: (generateLoop cfg outcomes (a + 1) r).2)) := by
  cases ho : outcomes a with
  | apiError msg =>
    rw [ho] at h
    simp only [attemptFailMsg, Option.some.injEq] at h
    subst h
    simp [generateLoop, ho]
  | response t u =>
    cases t with
    | none =>
      rw [ho] at h
      simp only [attemptFailMsg, Option.some.injEq] at h
      subst h
      simp [generateLoop, ho]
    | some s =>
      rw [ho] at h
      simp only [attemptFailMsg] at h
      by_cases hs : jsTrim s = ""
      · rw [if_pos hs] at h
        simp only [Option.some.injEq] at h
        subst h
        simp [generateLoop, ho, hs]
      · rw [if_neg hs] at h
        exact absurd h (by simp)

/-- When every attempt in the budget fails, the loop returns the final
attempt's error and sleeps `retryDelay * attempt` after each non-final
attempt. -/
theorem generateLoop_allFail (cfg : GenConfig) (outcomes : Nat → GenAttempt)
    (msgs : Nat → String) :
    ∀ (r a : Nat), 1 ≤ r →
      (∀ i, a ≤ i → i < a + r → attemptFailMsg (outcomes i) = some (msgs i)) →
      generateLoop cfg outcomes a r =
        (Except.error (msgs (a + r - 1)),
         (List.range (r - 1)).map (fun k => cfg.retryDelayMs * (a + k))) := by
  intro r
  induction r with
  | zero => intro a h; exact absurd h (by omega)
  | succ n ih =>
    intro a _ hfail
    have h0 : attemptFailMsg (outcomes a) = some (msgs a) :=
      hfail a le_rfl (by omega)
    rw [generateLoop_fail_step cfg outcomes a n (msgs a) h0]
    by_cases hn : n = 0
    · subst hn
      simp
    · rw [if_neg hn]
      rw [ih (a + 1) (by omega) (fun i h1 h2 => hfail i (by omega) (by omega))]
      obtain ⟨p, rfl⟩ := Nat.exists_eq_succ_of_ne_zero hn
      refine Prod.ext ?_ ?_
      · simp only
        congr 2
        omega
      · simp only [List.range_succ_eq_map, List.map_cons, List.map_map,
          Nat.add_zero, Nat.add_succ_sub_one, List.cons.injEq]
        refine ⟨trivial, ?_⟩
        apply List.map_congr_left
        intro k _
        simp [Function.comp]
        omega

/-- A resolved `generate` always carries text whose trim is nonempty:
the only success branch of the loop requires it. -/
theorem generateLoop_ok (cfg : GenConfig) (outcomes : Nat → GenAttempt) :
    ∀ (r a : Nat) (res : GenSuccess) (tr : List Nat),
      generateLoop cfg outcomes a r = (Except.ok res, tr) →
      jsTrim res.text ≠ "" := by
  intro r
  induction r with
  | zero =>
    intro a res tr h
    simp [generateLoop] at h
  | succ n ih =>
    intro a res tr h
    by_cases hfail : ∃ m, attemptFailMsg (outcomes a) = some m
    · obtain ⟨m, hm⟩ := hfail
      rw [generateLoop_fail_step cfg outcomes a n m hm] at h
      by_cases hn : n = 0
      · rw [if_pos hn] at h
        simp at h
      · rw [if_neg hn] at h
        have h1 : (generateLoop cfg outcomes (a + 1) n).1 = Except.ok res := by
          have := congrArg Prod.fst h
          simpa using this
        exact ih (a + 1) res (generateLoop cfg outcomes (a + 1) n).2
          (Prod.ext h1 rfl)
    · push_neg at hfail
      cases ho : outcomes a with
      | apiError msg =>
        exact absurd (by rw [ho] ; rfl) (hfail msg)
      | response t u =>
        cases t with
        | none =>
          exact absurd (by rw [ho] ; rfl) (hfail emptyRespMsg)
        | some s =>
          have hs : ¬ jsTrim s = "" := by
            by_contra hs
            exact hfail emptyRespMsg (by rw [ho]; simp [attemptFailMsg, hs])
          simp only [generateLoop, ho, if_neg hs, Prod.mk.injEq] at h
          obtain ⟨h1, -⟩ := h
          cases h1
          exact hs

/-- The drain loop returns exactly at the first poll index with all
flags clear, sleeping 100 ms between consecutive polls. -/
theorem stopDrain_firstClear (anyExec : Nat → Bool) :
    ∀ (n k fuel : Nat),
      (∀ m, m < n → anyExec (k + m) = true) →
      anyExec (k + n) = false →
      n < fuel →
      stopDrain anyExec k fuel =
        some (List.replicate n (StopStep.sleepMs 100) ++
              [StopStep.event StopEvent.finished]) := by
  intro n
  induction n with
  | zero =>
    intro k fuel _ h2 h3
    cases fuel with
    | zero => omega
    | succ f =>
      have hk : anyExec k = false := by simpa using h2
      simp [stopDrain, hk]
  | succ n ih =>
    intro k fuel h1 h2 h3
    cases fuel with
    | zero => omega
    | succ f =>
      have hk : anyExec k = true := by simpa using h1 0 (by omega)
      have hrec := ih (k + 1) f
        (fun m hm => by
          have hx := h1 (m + 1) (by omega)
          rwa [show k + (m + 1) = k + 1 + m by omega] at hx)
        (by rwa [show k + 1 + n = k + (n + 1) by omega])
        (by omega)
      simp [stopDrain, hk, hrec, List.replicate_succ]

/- ## Claim theorems -/

/-- C3: a timer fire while the tier's `_executing` flag is already true
returns immediately with no side effect whatever — no record saved, no
external call, no stat change, no flag change — for each of the three
tiers, so a tier never has two concurrently in-flight executions. -/
theorem C3_mutex_drop :
    ∀ (st : TierStats) (e2 : Env2min) (e10 : Env10min) (e1 : Env1h),
      run2min true st e2 = ⟨true, st, [], false⟩ ∧
      run10min true st e10 = ⟨true, st, [], false⟩ ∧
      run1h true st e1 = ⟨true, st, [], false⟩ := by
  intro st e2 e10 e1
  exact ⟨rfl, rfl, rfl⟩

/-- C8: any tier pipeline invocation that actually enters (its flag was
false) ends with the flag false again, on every path — gate-disallowed,
disabled, empty input, no-change skip, template-build throw, external
call exhaustion, and success — because the flag is cleared in the
`finally` block; this is what lets `stop`'s drain loop terminate. -/
theorem C8_executing_cleared :
    ∀ (st : TierStats) (e2 : Env2min) (e10 : Env10min) (e1 : Env1h),
      (run2min false st e2).executingAfter = false ∧
      (run10min false st e10).executingAfter = false ∧
      (run1h false st e1).executingAfter = false := by
  intro st e2 e10 e1
  refine ⟨?_, ?_, ?_⟩
  · unfold run2min
    repeat' split
    all_goals rfl
  · unfold run10min
    repeat' split
    all_goals rfl
  · unfold run1h
    repeat' split
    all_goals rfl

/-- C7: `allIdentical` is false on lists of length 0 or 1, and on longer
lists it is true exactly when every item's payload is byte-for-byte equal
to the first item's payload. -/
theorem C7_allIdentical_spec :
    (∀ l : List Screenshot, l.length ≤ 1 → allIdentical l = false) ∧
    (∀ (b : Screenshot) (rest : List Screenshot), rest ≠ [] →
      (allIdentical (b :: rest) = true ↔
        ∀ s ∈ b :: rest, s.buffer = b.buffer)) := by
  constructor
  · intro l hl
    match l with
    | [] => rfl
    | [x] => rfl
    | x :: y :: t =>
      simp only [List.length_cons] at hl
      omega
  · intro b rest hrest
    match rest, hrest with
    | r :: rs, _ =>
      constructor
      · intro hall s hs
        simp only [allIdentical, List.all_eq_true, beq_iff_eq] at hall
        rcases List.mem_cons.mp hs with h1 | h2
        · rw [h1]
        · exact hall s h2
      · intro hmem
        simp only [allIdentical, List.all_eq_true, beq_iff_eq]
        intro s hs
        exact hmem s (List.mem_cons_of_mem b hs)

/-- C9: on every nonempty screenshot batch the no-change 2min template
has `no_change = true`, exactly the single placeholder claim
(`category_type = ["行为"]`, `category_name = ["屏幕无变化"]`), and
`duration_minutes` fixed at 2 regardless of how many consecutive
unchanged windows preceded it. -/
theorem C9_noChange2min_template :
    ∀ (screenshots : List Screenshot) (awt : String), screenshots ≠ [] →
      (buildNoChange2minRecord screenshots awt).map
        (fun r => (r.no_change, r.category_type, r.category_name,
                   r.subtask_name, r.duration_minutes)) =
      some (true, ["行为"], ["屏幕无变化"], [""], 2) := by
  intro l awt h
  obtain ⟨lastShot, hlast⟩ :=
    Option.isSome_iff_exists.mp (List.getLast?_isSome.mpr h)
  unfold buildNoChange2minRecord
  rw [hlast]
  rfl

/-- C5: `_detectTimeGap` returns a gap exactly when the rounded minute
difference `round((now - last) / 60000)` strictly exceeds twice the
expected interval; an empty history or an unparseable last timestamp
gives null. -/
theorem C5_detectGap_spec :
    (∀ (nowMs m : Int), detectTimeGap [] nowMs m = none) ∧
    (∀ (hs : List StoredSummary) (nowMs m : Int) (last : StoredSummary),
      hs.getLast? = some last → last.timestamp = none →
      detectTimeGap hs nowMs m = none) ∧
    (∀ (hs : List StoredSummary) (nowMs m : Int) (last : StoredSummary)
        (lastMs : Int),
      hs.getLast? = some last → last.timestamp = some lastMs →
      detectTimeGap hs nowMs m =
        (if roundDivMinute (nowMs - lastMs) > m * 2 then
          some ⟨roundDivMinute (nowMs - lastMs), lastMs⟩
        else none)) := by
  refine ⟨fun nowMs m => rfl, ?_, ?_⟩
  · intro hs nowMs m last h1 h2
    simp [detectTimeGap, h1, h2]
  · intro hs nowMs m last lastMs h1 h2
    simp [detectTimeGap, h1, h2]

/-- C2: whenever the change detector is present and reports no change —
all screenshots byte-identical at the base tier, every child no-change at
the mid/top tiers — the tier run persists exactly the tier's no-change
template record, increments only `stats.skipped`, makes no external call,
and clears its flag. -/
theorem C2_noChange_skip :
    ∀ (st : TierStats) (e2 : Env2min) (e10 : Env10min) (e1 : Env1h)
      (rec : NoChange2min),
      (e2.allowed = true → e2.baseEnabled = true → e2.hasComparer = true →
        allIdentical e2.screenshots = true →
        buildNoChange2minRecord e2.screenshots e2.activeWindowTextSkip = some rec →
        run2min false st e2 =
          ⟨false, { st with skipped := st.skipped + 1 },
           [("2min", SummaryRecord.noChange2min rec)], false⟩) ∧
      (e10.allowed = true → e10.hasComparer = true →
        allNoChange e10.recent2min = true →
        run10min false st e10 =
          ⟨false, { st with skipped := st.skipped + 1 },
           [("10min", SummaryRecord.noChange10min
             (buildNoChange10minRecord e10.recent2min))], false⟩) ∧
      (e1.allowed = true → e1.hasComparer = true →
        allNoChange e1.recent10min = true →
        run1h false st e1 =
          ⟨false, { st with skipped := st.skipped + 1 },
           [("1h", SummaryRecord.noChange1h
             (buildNoChange1hRecord e1.recent10min))], false⟩) := by
  intro st e2 e10 e1 rec
  refine ⟨?_, ?_, ?_⟩
  · intro ha he hc hid hb
    have hne := isEmpty_false_of_allIdentical hid
    simp [run2min, ha, he, hc, hid, hne, hb]
  · intro ha hc hnc
    have hne := isEmpty_false_of_allNoChange hnc
    simp [run10min, ha, hc, hnc, hne]
  · intro ha hc hnc
    have hne := isEmpty_false_of_allNoChange hnc
    simp [run1h, ha, hc, hnc, hne]

/-- C6: with every attempt failing, the external call is retried up to
the configured attempt budget, sleeping `retryDelay * attempt` between
consecutive attempts (none after the last), and throws the final
attempt's error; the tier run then increments `stats.errors`, persists
nothing, and clears its flag. -/
theorem C6_retry_exhaustion :
    ∀ (st : TierStats) (env : Env2min) (msgs : Nat → String),
      1 ≤ env.genCfg.maxRetries →
      (∀ i, 1 ≤ i → i ≤ env.genCfg.maxRetries →
        attemptFailMsg (env.genOutcomes i) = some (msgs i)) →
      env.allowed = true → env.baseEnabled = true →
      env.screenshots.isEmpty = false →
      (env.hasComparer && allIdentical env.screenshots) = false →
      generateRun env.genCfg env.genOutcomes =
        (Except.error (msgs env.genCfg.maxRetries),
         (List.range (env.genCfg.maxRetries - 1)).map
           (fun k => env.genCfg.retryDelayMs * (k + 1))) ∧
      run2min false st env =
        ⟨false, { st with errors := st.errors + 1 }, [], true⟩ := by
  intro st env msgs h1 h2 hallow hen hne hskip
  have hgen : generateRun env.genCfg env.genOutcomes =
      (Except.error (msgs env.genCfg.maxRetries),
       (List.range (env.genCfg.maxRetries - 1)).map
         (fun k => env.genCfg.retryDelayMs * (k + 1))) := by
    unfold generateRun
    rw [generateLoop_allFail env.genCfg env.genOutcomes msgs
      env.genCfg.maxRetries 1 h1 (fun i hi1 hi2 => h2 i hi1 (by omega))]
    have e1 : 1 + env.genCfg.maxRetries - 1 = env.genCfg.maxRetries := by omega
    have e2 : (fun k => env.genCfg.retryDelayMs * (1 + k)) =
        (fun k => env.genCfg.retryDelayMs * (k + 1)) :=
      funext fun k => by rw [Nat.add_comm 1 k]
    rw [e1, e2]
  refine ⟨hgen, ?_⟩
  have hgen1 : (generateRun env.genCfg env.genOutcomes).1 =
      Except.error (msgs env.genCfg.maxRetries) := by rw [hgen]
  simp [run2min, hallow, hen, hne, hskip, hgen1]

/-- C10: a successful `generate` never resolves with blank text — any
response whose text is missing, empty, or whitespace-only is converted
into a failed attempt that is retried with the same backoff as a thrown
transient error. -/
theorem C10_generate_nonblank :
    ∀ (cfg : GenConfig) (outcomes : Nat → GenAttempt),
      (∀ (res : GenSuccess) (tr : List Nat),
        generateRun cfg outcomes = (Except.ok res, tr) →
        jsTrim res.text ≠ "") ∧
      (∀ (a r : Nat) (t : Option String) (u : Option UsageMetadata),
        outcomes a = GenAttempt.response t u → isBlankText t = true →
        r ≠ 0 →
        generateLoop cfg outcomes a (r + 1) =
          ((generateLoop cfg outcomes (a + 1) r).1,
           cfg.retryDelayMs * a ::
             (generateLoop cfg outcomes (a + 1) r).2)) := by
  intro cfg outcomes
  constructor
  · intro res tr h
    exact generateLoop_ok cfg outcomes cfg.maxRetries 1 res tr h
  · intro a r t u ho hblank hr
    have hm : attemptFailMsg (outcomes a) = some emptyRespMsg := by
      rw [ho]
      cases t with
      | none => rfl
      | some s =>
        simp only [isBlankText, beq_iff_eq] at hblank
        simp [attemptFailMsg, hblank]
    rw [generateLoop_fail_step cfg outcomes a r emptyRespMsg hm, if_neg hr]

/-- C1 (amended): on the mid/top success path, the scheduler persists
exactly the parsed external response — `_parseResponse` of the text the
external call returned — with no in-process timeline/distribution
aggregation over the children merged in; the aggregation instructions
live only in the prompt handed to the external analysis. -/
theorem C1_midtop_saves_parsed_response :
    ∀ (st : TierStats),
      (∀ (e10 : Env10min) (res : GenSuccess) (tr : List Nat),
        e10.allowed = true → e10.recent2min.isEmpty = false →
        (e10.hasComparer && allNoChange e10.recent2min) = false →
        generateRun e10.genCfg e10.genOutcomes = (Except.ok res, tr) →
        run10min false st e10 =
          ⟨false, { st with count := st.count + 1 },
           [("10min", parseResponseRecord e10.jsonParses res.text)],
           true⟩) ∧
      (∀ (e1 : Env1h) (res : GenSuccess) (tr : List Nat),
        e1.allowed = true → e1.recent10min.isEmpty = false →
        (e1.hasComparer && allNoChange e1.recent10min) = false →
        generateRun e1.genCfg e1.genOutcomes = (Except.ok res, tr) →
        run1h false st e1 =
          ⟨false, { st with count := st.count + 1 },
           [("1h", parseResponseRecord e1.jsonParses res.text)],
           true⟩) := by
  intro st
  constructor
  · intro e res tr ha hne hskip hgen
    have h1 : (generateRun e.genCfg e.genOutcomes).1 = Except.ok res := by
      rw [hgen]
    simp [run10min, ha, hne, hskip, h1]
  · intro e res tr ha hne hskip hgen
    have h1 : (generateRun e.genCfg e.genOutcomes).1 = Except.ok res := by
      rw [hgen]
    simp [run1h, ha, hne, hskip, h1]

/-- C1 counterexample: two mid-tier ticks whose child records differ
(different activities) but whose external response text is the same
produce bit-identical persisted records — the persisted record is
exactly the parsed external output, so the timeline fields are taken
solely from the external analysis output, not produced in-process from
the children. -/
theorem C1_counterexample :
    envChildrenA.recent2min ≠ envChildrenB.recent2min ∧
    run10min false stW envChildrenA = run10min false stW envChildrenB ∧
    (run10min false stW envChildrenA).savedRecords =
      [("10min", SummaryRecord.parsedJson "resp-json")] := by
  refine ⟨by decide, rfl, rfl⟩

/-- C4: when `stop` is called on a running scheduler and the tiers'
`_executing` flags first read all-clear at drain poll `n`, `stop` first
cancels the three tier timers, then sleeps 100 ms between each of its
`n` busy polls, and returns exactly at the first all-clear poll — it
performs no other action, so no in-flight execution is interrupted. -/
theorem C4_stop_drains :
    ∀ (anyExec : Nat → Bool) (fuel n : Nat),
      (∀ m, m < n → anyExec m = true) →
      anyExec n = false →
      n < fuel →
      stopModel true anyExec fuel =
        some ([StopStep.event StopEvent.clearTimer2min,
               StopStep.event StopEvent.clearTimer10min,
               StopStep.event StopEvent.clearTimer1h] ++
              (List.replicate n (StopStep.sleepMs 100) ++
               [StopStep.event StopEvent.finished])) := by
  intro anyExec fuel n h1 h2 h3
  have hd := stopDrain_firstClear anyExec n 0 fuel
    (fun m hm => by simpa using h1 m hm) (by simpa using h2) h3
  simp [stopModel, hd]

/- ## Witnesses -/

/-- Witness for C2 at concrete inputs for all three tiers. -/
theorem C2_witness :
    run2min false stW envSkip2 =
      ⟨false, ⟨0, 0, 1⟩, [("2min", SummaryRecord.noChange2min recSkip)],
       false⟩ ∧
    run10min false stW envSkip10 =
      ⟨false, ⟨0, 0, 1⟩,
       [("10min", SummaryRecord.noChange10min
         (buildNoChange10minRecord envSkip10.recent2min))], false⟩ ∧
    run1h false stW envSkip1h =
      ⟨false, ⟨0, 0, 1⟩,
       [("1h", SummaryRecord.noChange1h
         (buildNoChange1hRecord envSkip1h.recent10min))], false⟩ := by
  obtain ⟨hA, hB, hC⟩ := C2_noChange_skip stW envSkip2 envSkip10 envSkip1h recSkip
  exact ⟨hA rfl rfl rfl rfl rfl, hB rfl rfl rfl, hC rfl rfl rfl⟩

/-- Witness for C5 at the boundary inputs named in the claim. -/
theorem C5_witness :
    detectTimeGap [] 0 2 = none ∧
    detectTimeGap [⟨none, false, none⟩] 999999 2 = none ∧
    detectTimeGap [⟨some 0, false, none⟩] 240000 2 = none ∧
    detectTimeGap [⟨some 0, false, none⟩] 300000 2 = some ⟨5, 0⟩ := by
  obtain ⟨hA, hB, hC⟩ := C5_detectGap_spec
  refine ⟨hA 0 2, hB _ 999999 2 ⟨none, false, none⟩ rfl rfl, ?_, ?_⟩
  · rw [hC [⟨some 0, false, none⟩] 240000 2 ⟨some 0, false, none⟩ 0 rfl rfl]
    decide
  · rw [hC [⟨some 0, false, none⟩] 300000 2 ⟨some 0, false, none⟩ 0 rfl rfl]
    decide

/-- Witness for C6: three attempts all throwing `boom` give sleeps of
2000 ms and 4000 ms, the final error, one more `stats.errors`, and no
saved record. -/
theorem C6_witness :
    generateRun envFail2.genCfg envFail2.genOutcomes =
      (Except.error "boom", [2000, 4000]) ∧
    run2min false stW envFail2 = ⟨false, ⟨0, 1, 0⟩, [], true⟩ := by
  have h := C6_retry_exhaustion stW envFail2 (fun _ => "boom") (by decide)
    (fun i _ _ => rfl) rfl rfl rfl rfl
  refine ⟨?_, h.2⟩
  rw [h.1]
  rfl

/-- Witness for C7 at a singleton list and a two-element identical
list. -/
theorem C7_witness :
    allIdentical [⟨[1, 2], 0⟩] = false ∧
    (allIdentical [⟨[1, 2], 0⟩, ⟨[1, 2], 60000⟩] = true ↔
      ∀ s ∈ [Screenshot.mk [1, 2] 0, Screenshot.mk [1, 2] 60000],
        s.buffer = (Screenshot.mk [1, 2] 0).buffer) :=
  ⟨C7_allIdentical_spec.1 [⟨[1, 2], 0⟩] (by decide),
   C7_allIdentical_spec.2 ⟨[1, 2], 0⟩ [⟨[1, 2], 60000⟩] (by decide)⟩

/-- Witness for C9 at a one-screenshot batch. -/
theorem C9_witness :
    (buildNoChange2minRecord [⟨[5], 0⟩] "x").map
      (fun r => (r.no_change, r.category_type, r.category_name,
                 r.subtask_name, r.duration_minutes)) =
    some (true, ["行为"], ["屏幕无变化"], [""], 2) :=
  C9_noChange2min_template [⟨[5], 0⟩] "x" (by decide)

/-- Witness for C10: a blank first attempt is retried with the 2000 ms
backoff and the resolved text is nonblank. -/
theorem C10_witness :
    jsTrim " ok " ≠ "" ∧
    generateLoop cfgW outcomesBlankThenOk 1 3 =
      ((generateLoop cfgW outcomesBlankThenOk 2 2).1,
       2000 * 1 :: (generateLoop cfgW outcomesBlankThenOk 2 2).2) :=
  ⟨(C10_generate_nonblank cfgW outcomesBlankThenOk).1 ⟨" ok ", none⟩
     [2000] rfl,
   (C10_generate_nonblank cfgW outcomesBlankThenOk).2 1 2 (some "   ")
     none rfl rfl (by decide)⟩

/-- Witness for C1's amended theorem at `envChildrenA`. -/
theorem C1_witness :
    run10min false stW envChildrenA =
      ⟨false, ⟨1, 0, 0⟩,
       [("10min", SummaryRecord.parsedJson "resp-json")], true⟩ :=
  (C1_midtop_saves_parsed_response stW).1 envChildrenA ⟨"resp-json", none⟩
    [] rfl rfl rfl rfl

/-- Witness for C4: flags busy for two polls, fuel 5. -/
theorem C4_witness :
    stopModel true anyExecW 5 =
      some ([StopStep.event StopEvent.clearTimer2min,
             StopStep.event StopEvent.clearTimer10min,
             StopStep.event StopEvent.clearTimer1h] ++
            (List.replicate 2 (StopStep.sleepMs 100) ++
             [StopStep.event StopEvent.finished])) := by
  refine C4_stop_drains anyExecW 5 2 ?_ ?_ ?_
  · intro m hm
    interval_cases m <;> rfl
  · rfl
  · decide

end WorkWeaver
